import Mathlib

/-
  Verification of `src/src/HidCerberus/GuardedDevice.cpp` (HidGuardian).

  The file models the three pieces of that translation unit:
  * the constructor `GuardedDevice::GuardedDevice` (lines 30-68): opening the
    device node and classifying `CreateFileA` failures;
  * the guard loop `GuardedDevice::runTask` (lines 70-214): per-cycle
    zeroing of the exchange structures, the GET ioctl, result
    classification, the vigil (authorization) call, the SET ioctl, and the
    exit paths;
  * the destructor `GuardedDevice::~GuardedDevice` (lines 216-222).

  The OS and the driver are modelled as a per-cycle environment (`CycleEnv`):
  what `isCancelled()` returns at the cycle boundary, what the driver answers
  to the GET and SET ioctls, what `_rnd.next()` yields, and which fields the
  CLR host writes through the `PBOOL` out-parameters of `processVigil`.
  Running the loop produces a trace of observable events (`Event`): the
  cancellation checks, the ioctl calls with their exact payloads, the sleeps,
  every log statement with its severity, format string and arguments, and the
  resource releases.  The GET buffer and the SET structure are threaded from
  cycle to cycle as state, exactly as the single `malloc`ed buffer and the
  stack-local `hgSet` persist across iterations in the source, so that the
  per-cycle `ZeroMemory` calls are modelled as genuine overwrites of possibly
  stale state.
-/

namespace HidGuardian

/-- Windows error code ERROR_FILE_NOT_FOUND, checked at GuardedDevice.cpp:54. -/
def ERROR_FILE_NOT_FOUND : Nat := 2

/-- Windows error code ERROR_ACCESS_DENIED, checked at GuardedDevice.cpp:59. -/
def ERROR_ACCESS_DENIED : Nat := 5

/-- Windows error code ERROR_DEV_NOT_EXIST, checked at GuardedDevice.cpp:130 and :196. -/
def ERROR_DEV_NOT_EXIST : Nat := 55

/-- Windows error code ERROR_NO_MORE_ITEMS, checked at GuardedDevice.cpp:124. -/
def ERROR_NO_MORE_ITEMS : Nat := 259

/-- Contents of the `HIDGUARDIAN_GET_CREATE_REQUEST` exchange buffer pointed to
by `pHgGet`.  Wide strings are modelled as Lean strings (the
`Poco::UnicodeConverter::convert` calls at lines 141 and 144 are encoding
conversions and are modelled as the identity on the abstract string value). -/
structure GetBuffer where
  Size : Nat
  RequestId : Nat
  ProcessId : Nat
  DeviceId : String
  InstanceId : String
  HardwareIds : String
deriving DecidableEq

/-- The all-zero state of the GET exchange buffer. -/
def zeroGetBuffer : GetBuffer :=
  { Size := 0, RequestId := 0, ProcessId := 0,
    DeviceId := "", InstanceId := "", HardwareIds := "" }

/-- Effect of `ZeroMemory(pHgGet, pHgGetSize)` (line 93): the whole buffer is
overwritten with zero bytes, whatever it previously held. -/
def zeroMemoryGet (_prev : GetBuffer) : GetBuffer := zeroGetBuffer

/-- The `HIDGUARDIAN_SET_CREATE_REQUEST` structure `hgSet`. -/
structure SetRequest where
  RequestId : Nat
  IsAllowed : Bool
  IsSticky : Bool
deriving DecidableEq

/-- The all-zero state of `hgSet`: zero token, both flags false. -/
def zeroSetRequest : SetRequest :=
  { RequestId := 0, IsAllowed := false, IsSticky := false }

/-- Effect of `ZeroMemory(&hgSet, sizeof(HIDGUARDIAN_SET_CREATE_REQUEST))`
(line 92). -/
def zeroMemorySet (_prev : SetRequest) : SetRequest := zeroSetRequest

/-- What the driver writes into the GET buffer when the ioctl completes with
data.  `requestId` is `some v` when the driver overwrites the `RequestId`
field with `v`, and `none` when it leaves the caller-stamped hint in place. -/
structure CreateResponse where
  requestId : Option Nat
  processId : Nat
  deviceId : String
  instanceId : String
  hardwareIds : String
deriving DecidableEq

/-- The driver completion writing a `CreateResponse` into the GET buffer. -/
def applyResponse (b : GetBuffer) (r : CreateResponse) : GetBuffer :=
  { b with RequestId := r.requestId.getD b.RequestId,
           ProcessId := r.processId,
           DeviceId := r.deviceId,
           InstanceId := r.instanceId,
           HardwareIds := r.hardwareIds }

/-- Outcome of `GetOverlappedResult` for the GET ioctl (lines 117-138): either
the driver completed with data in the buffer, or it failed and `GetLastError`
returned `error`. -/
inductive PollResult
  | success (resp : CreateResponse)
  | failure (error : Nat)
deriving DecidableEq

/-- Outcome of `GetOverlappedResult` for the SET ioctl (lines 192-204). -/
inductive SubmitResult
  | success
  | failure (error : Nat)
deriving DecidableEq

/-- What `_clrHost->processVigil` writes through its two `PBOOL`
out-parameters (lines 164-165).  `none` models the host leaving the
zero-initialized field untouched. -/
structure VigilAnswer where
  isAllowed : Option Bool
  isSticky : Option Bool
deriving DecidableEq

/-- The environment of one iteration of the `while (!isCancelled())` loop:
everything the OS, the driver, the RNG and the CLR host feed into that
iteration. -/
structure CycleEnv where
  cancelled : Bool
  reqIdHint : Nat
  pollResult : PollResult
  vigil : VigilAnswer
  submitResult : SubmitResult
deriving DecidableEq

/-- An argument interpolated into a log format string. -/
inductive LogArg
  | n (v : Nat)
  | s (v : String)
  | b (v : Bool)
deriving DecidableEq

/-- Observable events of a `runTask` execution. -/
inductive Event
  | checkCancel (result : Bool)
  | pollIoctl (ioSize : Nat) (buf : GetBuffer)
  | sleep (ms : Nat)
  | decide (hardwareIds deviceId instanceId : String) (processId : Nat)
  | submitIoctl (payload : SetRequest)
  | logDebug (fmt : String) (args : List LogArg)
  | logError (fmt : String) (args : List LogArg)
  | logInfo (fmt : String)
  | freeBuffer
  | closeEventHandle
  | closeDeviceHandle
deriving DecidableEq

/-- Format string of the debug log at line 101. -/
def fmtLooking : String := "Looking for quests (ID: %lu)"

/-- Format string of the debug log at line 148. -/
def fmtDeviceId : String := "DeviceId = %s"

/-- Format string of the debug log at line 149. -/
def fmtInstanceId : String := "InstanceId = %s"

/-- Format string of the debug log at line 150. -/
def fmtCompleted : String := "Request (ID: %lu) completed"

/-- Format string of the debug log at line 151. -/
def fmtPid : String := "PID: %lu"

/-- Format string of the debug log at line 157. -/
def fmtStartVigil : String := "Start processing Vigil (ID: %lu)"

/-- Format string of the debug log at line 168. -/
def fmtEndVigil : String := "End processing Vigil (ID: %lu)"

/-- Format string of the debug log at line 173. -/
def fmtIsAllowed : String := "IsAllowed: %b"

/-- Format string of the debug log at line 174. -/
def fmtIsSticky : String := "IsSticky: %b"

/-- Format string of the debug log at line 175. -/
def fmtSending : String := "Sending permission request %lu"

/-- Format string of the debug logs at lines 132 and 198. -/
def fmtGone : String := "Device got removed/powered down, terminating thread"

/-- Format string of the error log at line 136. -/
def fmtPollFailed : String := "Request (ID: %lu) failed: %lu"

/-- Format string of the error log at line 202. -/
def fmtSubmitFailed : String := "Permission request %lu failed"

/-- Format string of the debug log at line 207. -/
def fmtFinished : String := "Permission request %lu finished successfully"

/-- Message of the information log at line 213. -/
def fmtNoMore : String := "No more guarding"

/-- The GET buffer as it is handed to the driver on every poll: all-zero
except the `Size` field (set to the total buffer size at line 94) and the
`RequestId` field (stamped with the fresh token hint at line 98). -/
def freshGetBuffer (total hint : Nat) : GetBuffer :=
  { zeroGetBuffer with Size := total, RequestId := hint }

/-- Result of one non-cancelled loop iteration: the events it emitted,
whether the loop continues (`true`) or breaks (`false`), and the final
contents of the two exchange structures, which persist into the next
iteration. -/
structure CycleOut where
  events : List Event
  continues : Bool
  getBuf : GetBuffer
  setBuf : SetRequest
deriving DecidableEq

/-- One iteration of the loop body (GuardedDevice.cpp lines 92-207), entered
when `isCancelled()` returned false.  `total` is `pHgGetSize`, `prevGet` and
`prevSet` are the contents the exchange structures were left with by the
previous iteration (or the arbitrary initial contents of `malloc`ed /
stack-local memory on the first iteration). -/
def cycleBody (total : Nat) (prevGet : GetBuffer) (prevSet : SetRequest)
    (e : CycleEnv) : CycleOut :=
  -- line 92: ZeroMemory(&hgSet, ...)
  let hgSet0 := zeroMemorySet prevSet
  -- line 93: ZeroMemory(pHgGet, pHgGetSize); line 94: pHgGet->Size = pHgGetSize
  let buf0 := { zeroMemoryGet prevGet with Size := total }
  -- lines 96-98: stamp the fresh token from _rnd.next()
  let buf := { buf0 with RequestId := e.reqIdHint }
  -- line 101 debug log, lines 106-115 the GET ioctl
  let pre := [Event.logDebug fmtLooking [LogArg.n buf.RequestId],
              Event.pollIoctl total buf]
  match e.pollResult with
  | PollResult.failure err =>
    -- lines 117-138: GetOverlappedResult failed; the buffer is unchanged
    if err = ERROR_NO_MORE_ITEMS then
      { events := pre ++ [Event.sleep 200],
        continues := true, getBuf := buf, setBuf := hgSet0 }
    else if err = ERROR_DEV_NOT_EXIST then
      { events := pre ++ [Event.logDebug fmtGone []],
        continues := false, getBuf := buf, setBuf := hgSet0 }
    else
      { events := pre ++ [Event.logError fmtPollFailed
                            [LogArg.n buf.RequestId, LogArg.n err]],
        continues := false, getBuf := buf, setBuf := hgSet0 }
  | PollResult.success resp =>
    -- the driver completed with data in the buffer
    let buf2 := applyResponse buf resp
    -- line 154: hgSet.RequestId = pHgGet->RequestId (read back after the ioctl)
    let hgSet1 := { hgSet0 with RequestId := buf2.RequestId }
    -- lines 159-166: processVigil writes the two flags (or leaves them zeroed)
    let hgSet2 := { hgSet1 with
                      IsAllowed := e.vigil.isAllowed.getD hgSet1.IsAllowed,
                      IsSticky := e.vigil.isSticky.getD hgSet1.IsSticky }
    let mid := pre ++
      [Event.logDebug fmtDeviceId [LogArg.s buf2.DeviceId],
       Event.logDebug fmtInstanceId [LogArg.s buf2.InstanceId],
       Event.logDebug fmtCompleted [LogArg.n buf2.RequestId],
       Event.logDebug fmtPid [LogArg.n buf2.ProcessId],
       Event.logDebug fmtStartVigil [LogArg.n buf2.RequestId],
       Event.decide buf2.HardwareIds buf2.DeviceId buf2.InstanceId buf2.ProcessId,
       Event.logDebug fmtEndVigil [LogArg.n buf2.RequestId],
       Event.logDebug fmtIsAllowed [LogArg.b hgSet2.IsAllowed],
       Event.logDebug fmtIsSticky [LogArg.b hgSet2.IsSticky],
       Event.logDebug fmtSending [LogArg.n buf2.RequestId],
       -- lines 181-190: the SET ioctl carrying hgSet
       Event.submitIoctl hgSet2]
    match e.submitResult with
    | SubmitResult.success =>
      -- line 207 debug log
      { events := mid ++ [Event.logDebug fmtFinished [LogArg.n buf2.RequestId]],
        continues := true, getBuf := buf2, setBuf := hgSet2 }
    | SubmitResult.failure err =>
      -- lines 192-204
      if err = ERROR_DEV_NOT_EXIST then
        { events := mid ++ [Event.logDebug fmtGone []],
          continues := false, getBuf := buf2, setBuf := hgSet2 }
      else
        { events := mid ++ [Event.logError fmtSubmitFailed
                              [LogArg.n buf2.RequestId]],
          continues := false, getBuf := buf2, setBuf := hgSet2 }

/-- Events emitted after the loop exits (lines 210-213): free the exchange
buffer, close the overlapped event handle, log the farewell. -/
def epilogue : List Event :=
  [Event.freeBuffer, Event.closeEventHandle, Event.logInfo fmtNoMore]

/-- The `while (!isCancelled())` loop (lines 90-208) over a finite list of
modelled cycles.  Returns the emitted events and whether the loop exited
(`true`: via the cancellation check or a `break`) or merely ran out of
modelled cycles (`false`: still running at the model horizon). -/
def loopAux (total : Nat) (g : GetBuffer) (s : SetRequest) :
    List CycleEnv → List Event × Bool
  | [] => ([], false)
  | e :: rest =>
    if e.cancelled then ([Event.checkCancel true], true)
    else
      let o := cycleBody total g s e
      if o.continues then
        let r := loopAux total o.getBuf o.setBuf rest
        (Event.checkCancel false :: o.events ++ r.1, r.2)
      else (Event.checkCancel false :: o.events, true)

/-- Whether the loop exits (rather than reaching the model horizon). -/
def loopExits (hdrSize cap : Nat) (g0 : GetBuffer) (s0 : SetRequest)
    (envs : List CycleEnv) : Bool :=
  (loopAux (hdrSize + cap) g0 s0 envs).2

/-- The whole of `GuardedDevice::runTask` (lines 70-214).  `hdrSize` is
`sizeof(HIDGUARDIAN_GET_CREATE_REQUEST)`, `cap` is `_bufferSize`, so
`hdrSize + cap` is `pHgGetSize` (line 84).  `g0` and `s0` are the arbitrary
initial contents of the `malloc`ed buffer and of the stack-local `hgSet`.
The epilogue (free, close, farewell log) runs exactly when the loop
exited. -/
def runTask (hdrSize cap : Nat) (g0 : GetBuffer) (s0 : SetRequest)
    (envs : List CycleEnv) : List Event :=
  let r := loopAux (hdrSize + cap) g0 s0 envs
  r.1 ++ (if r.2 then epilogue else [])

/-- A constructed `GuardedDevice`: the stored path and whether
`_deviceHandle` is valid. -/
structure GuardedDeviceState where
  devicePath : String
  handleValid : Bool
deriving DecidableEq

/-- Outcome of the `CreateFileA` call at lines 40-47, as the environment
decides it: either a valid handle, or `INVALID_HANDLE_VALUE` with the given
`GetLastError` code. -/
inductive OpenOutcome
  | opened
  | failed (lastError : Nat)
deriving DecidableEq

/-- The error taxonomy of the constructor, one case per `throw` site
(lines 54-64), each carrying the thrown message. -/
inductive DeviceOpenError
  | NotFound (msg : String)
  | AccessDenied (msg : String)
  | Unknown (msg : String)
deriving DecidableEq

/-- Message thrown at line 56. -/
def msgNotFound : String :=
  "Couldn\x27t open the desired device, make sure the provided path is correct."

/-- Message thrown at line 61. -/
def msgAccessDenied : String :=
  "Couldn\x27t access device, please make sure the device isn\x27t already guarded."

/-- Message thrown at line 64. -/
def msgUnknown : String :=
  "Couldn\x27t access device, unknown error."

/-- The constructor `GuardedDevice::GuardedDevice` (lines 30-68): a single
`CreateFileA` attempt (no retry), whose failure is classified by
`GetLastError` into the three throw sites.  On success the object holds a
valid handle. -/
def openGuardedDevice (path : String) (os : OpenOutcome) :
    Except DeviceOpenError GuardedDeviceState :=
  match os with
  | OpenOutcome.opened => Except.ok { devicePath := path, handleValid := true }
  | OpenOutcome.failed err =>
    if err = ERROR_FILE_NOT_FOUND then
      Except.error (DeviceOpenError.NotFound msgNotFound)
    else if err = ERROR_ACCESS_DENIED then
      Except.error (DeviceOpenError.AccessDenied msgAccessDenied)
    else
      Except.error (DeviceOpenError.Unknown msgUnknown)

/-- The destructor `GuardedDevice::~GuardedDevice` (lines 216-222): closes
the device handle exactly when it is valid. -/
def destructorRun (d : GuardedDeviceState) : List Event :=
  if d.handleValid then [Event.closeDeviceHandle] else []

/-- A full lifetime of a guarded device that reached `runTask`: the loop run
followed by the destructor. -/
def lifecycle (hdrSize cap : Nat) (g0 : GetBuffer) (s0 : SetRequest)
    (envs : List CycleEnv) (d : GuardedDeviceState) : List Event :=
  runTask hdrSize cap g0 s0 envs ++ destructorRun d

/-- Event kinds, for statements that only care about the shape of a trace. -/
inductive EKind
  | check
  | poll
  | sleepy
  | vigil
  | submitted
  | dbg
  | err
  | info
  | freed
  | closedEvt
  | closedDev
deriving DecidableEq

/-- The kind of an event. -/
def Event.kind : Event → EKind
  | Event.checkCancel _ => EKind.check
  | Event.pollIoctl _ _ => EKind.poll
  | Event.sleep _ => EKind.sleepy
  | Event.decide _ _ _ _ => EKind.vigil
  | Event.submitIoctl _ => EKind.submitted
  | Event.logDebug _ _ => EKind.dbg
  | Event.logError _ _ => EKind.err
  | Event.logInfo _ => EKind.info
  | Event.freeBuffer => EKind.freed
  | Event.closeEventHandle => EKind.closedEvt
  | Event.closeDeviceHandle => EKind.closedDev

/-- Number of events of kind `k` in a trace. -/
def countKind (k : EKind) (tr : List Event) : Nat :=
  (tr.filter (fun ev => Event.kind ev == k)).length

/-- The `(ioSize, buffer)` pairs of the poll ioctls of a trace, in order. -/
def pollCalls (tr : List Event) : List (Nat × GetBuffer) :=
  tr.filterMap (fun ev => match ev with
    | Event.pollIoctl a b => some (a, b)
    | _ => none)

/-- The payloads of the submit ioctls of a trace, in order. -/
def submitPayloads (tr : List Event) : List SetRequest :=
  tr.filterMap (fun ev => match ev with
    | Event.submitIoctl p => some p
    | _ => none)

/-- The results of cancellation-flag checks of a trace, in order. -/
def cancelChecks (tr : List Event) : List Bool :=
  tr.filterMap (fun ev => match ev with
    | Event.checkCancel r => some r
    | _ => none)

/-- The sleep durations of a trace, in order. -/
def sleepCalls (tr : List Event) : List Nat :=
  tr.filterMap (fun ev => match ev with
    | Event.sleep ms => some ms
    | _ => none)

/-- The error-severity log events of a trace. -/
def errorLogs (tr : List Event) : List Event :=
  tr.filter (fun ev => Event.kind ev == EKind.err)

/-- All numeric arguments appearing in error-severity log events. -/
def errorLogNatArgs (tr : List Event) : List Nat :=
  (tr.filterMap (fun ev => match ev with
    | Event.logError _ args =>
      some (args.filterMap (fun a => match a with
        | LogArg.n v => some v
        | _ => none))
    | _ => none)).flatten

/-- A cycle environment makes the loop go around again exactly when it is
not cancelled and its body neither breaks nor terminates. -/
def cycleGoesOn (total : Nat) (e : CycleEnv) : Bool :=
  !e.cancelled && (cycleBody total zeroGetBuffer zeroSetRequest e).continues

/-- The events of a run of consecutive non-exiting cycles. -/
def cyclesEvents (total : Nat) (p : List CycleEnv) : List Event :=
  (p.map (fun e =>
    Event.checkCancel false :: (cycleBody total zeroGetBuffer zeroSetRequest e).events)).flatten

/-- The events of one idle cycle: the driver reported an empty queue, so the
iteration checks cancellation, logs, polls, and sleeps the fixed 200ms
interval (line 126). -/
def emptyCycleEvents (total : Nat) (e : CycleEnv) : List Event :=
  [Event.checkCancel false,
   Event.logDebug fmtLooking [LogArg.n e.reqIdHint],
   Event.pollIoctl total (freshGetBuffer total e.reqIdHint),
   Event.sleep 200]

/-! Concrete sample data, used to evaluate the model on closed inputs. -/

/-- A sample driver response that leaves the stamped token in place. -/
def sampleResp : CreateResponse :=
  { requestId := none, processId := 4242,
    deviceId := "HID device 0", instanceId := "HID instance 0",
    hardwareIds := "HID hardware ids" }

/-- A sample driver response that overwrites the token with 1234. -/
def sampleRespOver : CreateResponse :=
  { requestId := some 1234, processId := 4242,
    deviceId := "HID device 0", instanceId := "HID instance 0",
    hardwareIds := "HID hardware ids" }

/-- A cycle at whose boundary cancellation was requested. -/
def envCancelled : CycleEnv :=
  { cancelled := true, reqIdHint := 1,
    pollResult := PollResult.failure ERROR_NO_MORE_ITEMS,
    vigil := { isAllowed := none, isSticky := none },
    submitResult := SubmitResult.success }

/-- A cycle in which the driver reports an empty queue. -/
def envEmpty : CycleEnv :=
  { cancelled := false, reqIdHint := 5,
    pollResult := PollResult.failure ERROR_NO_MORE_ITEMS,
    vigil := { isAllowed := none, isSticky := none },
    submitResult := SubmitResult.success }

/-- A cycle in which the poll reports the device gone. -/
def envGonePoll : CycleEnv :=
  { cancelled := false, reqIdHint := 6,
    pollResult := PollResult.failure ERROR_DEV_NOT_EXIST,
    vigil := { isAllowed := none, isSticky := none },
    submitResult := SubmitResult.success }

/-- A cycle with a successful poll, a full vigil answer (allow, not sticky)
and a successful submit. -/
def envSuccess : CycleEnv :=
  { cancelled := false, reqIdHint := 7,
    pollResult := PollResult.success sampleResp,
    vigil := { isAllowed := some true, isSticky := some false },
    submitResult := SubmitResult.success }

/-- A cycle whose poll fails with an unclassified OS error (31). -/
def envFatalPoll : CycleEnv :=
  { cancelled := false, reqIdHint := 8,
    pollResult := PollResult.failure 31,
    vigil := { isAllowed := none, isSticky := none },
    submitResult := SubmitResult.success }

/-- A cycle whose submit fails with an unclassified OS error (99). -/
def envSubmitFatal : CycleEnv :=
  { cancelled := false, reqIdHint := 9,
    pollResult := PollResult.success sampleResp,
    vigil := { isAllowed := some true, isSticky := some false },
    submitResult := SubmitResult.failure 99 }

/-- A cycle whose poll succeeds but whose vigil writes neither flag. -/
def envVigilSilent : CycleEnv :=
  { cancelled := false, reqIdHint := 10,
    pollResult := PollResult.success sampleResp,
    vigil := { isAllowed := none, isSticky := none },
    submitResult := SubmitResult.success }

/-- A cycle whose poll succeeds with a driver-overwritten token. -/
def envOverwrite : CycleEnv :=
  { cancelled := false, reqIdHint := 11,
    pollResult := PollResult.success sampleRespOver,
    vigil := { isAllowed := some false, isSticky := some true },
    submitResult := SubmitResult.success }

/-! Basic structural lemmas about the embedding. -/

/-- The loop body is insensitive to the contents the exchange structures were
left with: both are zeroed (lines 92-93) before any use.  This is the formal
content of the per-cycle `ZeroMemory` calls. -/
theorem cycleBody_state_irrel (total : Nat) (g g' : GetBuffer)
    (s s' : SetRequest) (e : CycleEnv) :
    cycleBody total g s e = cycleBody total g' s' e := rfl

theorem pollCalls_append (a b : List Event) :
    pollCalls (a ++ b) = pollCalls a ++ pollCalls b := by
  simp [pollCalls]

theorem submitPayloads_append (a b : List Event) :
    submitPayloads (a ++ b) = submitPayloads a ++ submitPayloads b := by
  simp [submitPayloads]

theorem cancelChecks_append (a b : List Event) :
    cancelChecks (a ++ b) = cancelChecks a ++ cancelChecks b := by
  simp [cancelChecks]

theorem sleepCalls_append (a b : List Event) :
    sleepCalls (a ++ b) = sleepCalls a ++ sleepCalls b := by
  simp [sleepCalls]

theorem errorLogs_append (a b : List Event) :
    errorLogs (a ++ b) = errorLogs a ++ errorLogs b := by
  simp [errorLogs]

theorem countKind_append (k : EKind) (a b : List Event) :
    countKind k (a ++ b) = countKind k a + countKind k b := by
  simp [countKind]

/-- The two terminal poll classifications are distinct error codes. -/
theorem devNotExist_ne_noMoreItems : ERROR_DEV_NOT_EXIST ≠ ERROR_NO_MORE_ITEMS := by decide

/-- Every iteration of the loop body issues exactly one GET ioctl, it passes
the total buffer size as the I/O bound, and the buffer it hands over is
all-zero except for the `Size` field (the total size) and the freshly stamped
token. -/
theorem cycle_pollCalls (total : Nat) (g : GetBuffer) (s : SetRequest)
    (e : CycleEnv) :
    pollCalls (cycleBody total g s e).events
      = [(total, freshGetBuffer total e.reqIdHint)] := by
  obtain ⟨c, hint, pr, vig, sr⟩ := e
  cases pr with
  | success resp =>
    cases sr with
    | success =>
      simp [cycleBody, pollCalls, freshGetBuffer, zeroMemoryGet]
    | failure err =>
      by_cases h : err = ERROR_DEV_NOT_EXIST <;>
        simp [cycleBody, pollCalls, freshGetBuffer, zeroMemoryGet, h]
  | failure err =>
    by_cases h1 : err = ERROR_NO_MORE_ITEMS
    · simp [cycleBody, pollCalls, freshGetBuffer, zeroMemoryGet, h1]
    · by_cases h2 : err = ERROR_DEV_NOT_EXIST <;>
        simp [cycleBody, pollCalls, freshGetBuffer, zeroMemoryGet, h1, h2, devNotExist_ne_noMoreItems]

/-- The loop body never consults the cancellation flag: the only check sits
at the `while` condition, before the body runs. -/
theorem cycle_cancelChecks (total : Nat) (g : GetBuffer) (s : SetRequest)
    (e : CycleEnv) :
    cancelChecks (cycleBody total g s e).events = [] := by
  obtain ⟨c, hint, pr, vig, sr⟩ := e
  cases pr with
  | success resp =>
    cases sr with
    | success => simp [cycleBody, cancelChecks]
    | failure err =>
      by_cases h : err = ERROR_DEV_NOT_EXIST <;>
        simp [cycleBody, cancelChecks, h]
  | failure err =>
    by_cases h1 : err = ERROR_NO_MORE_ITEMS
    · simp [cycleBody, cancelChecks, h1]
    · by_cases h2 : err = ERROR_DEV_NOT_EXIST <;>
        simp [cycleBody, cancelChecks, h1, h2, devNotExist_ne_noMoreItems]

/-- The loop body releases no resources: `free` and the two `CloseHandle`
calls happen only after the loop (lines 210-211) and in the destructor. -/
theorem cycle_countKind_release (total : Nat) (g : GetBuffer) (s : SetRequest)
    (e : CycleEnv) (k : EKind)
    (hk : k = EKind.freed ∨ k = EKind.closedEvt ∨ k = EKind.closedDev) :
    countKind k (cycleBody total g s e).events = 0 := by
  obtain ⟨c, hint, pr, vig, sr⟩ := e
  rcases hk with hk | hk | hk <;> subst hk <;>
  · cases pr with
    | success resp =>
      cases sr with
      | success => simp [cycleBody, countKind, Event.kind]
      | failure err =>
        by_cases h : err = ERROR_DEV_NOT_EXIST <;>
          simp [cycleBody, countKind, Event.kind, h]
    | failure err =>
      by_cases h1 : err = ERROR_NO_MORE_ITEMS
      · simp [cycleBody, countKind, Event.kind, h1]
      · by_cases h2 : err = ERROR_DEV_NOT_EXIST <;>
          simp [cycleBody, countKind, Event.kind, h1, h2, devNotExist_ne_noMoreItems]

/-- When the poll succeeded, the body submits exactly one SET payload: the
token read back from the buffer after the ioctl, and each flag as written by
the vigil or left at its zero-initialized `false`. -/
theorem cycle_submitPayloads_success (total : Nat) (g : GetBuffer)
    (s : SetRequest) (e : CycleEnv) (resp : CreateResponse)
    (hp : e.pollResult = PollResult.success resp) :
    submitPayloads (cycleBody total g s e).events
      = [{ RequestId := resp.requestId.getD e.reqIdHint,
           IsAllowed := e.vigil.isAllowed.getD false,
           IsSticky := e.vigil.isSticky.getD false }] := by
  obtain ⟨c, hint, pr, vig, sr⟩ := e
  cases pr with
  | success r =>
    have hr : r = resp := by simpa using hp
    subst hr
    cases sr with
    | success =>
      simp [cycleBody, submitPayloads, applyResponse, zeroMemoryGet,
            zeroMemorySet, zeroSetRequest, zeroGetBuffer]
    | failure err =>
      by_cases h : err = ERROR_DEV_NOT_EXIST <;>
        simp [cycleBody, submitPayloads, applyResponse, zeroMemoryGet,
              zeroMemorySet, zeroSetRequest, zeroGetBuffer, h]
  | failure err => simp at hp

/-- When the poll failed, nothing is submitted in that cycle. -/
theorem cycle_submitPayloads_failure (total : Nat) (g : GetBuffer)
    (s : SetRequest) (e : CycleEnv) (err : Nat)
    (hp : e.pollResult = PollResult.failure err) :
    submitPayloads (cycleBody total g s e).events = [] := by
  obtain ⟨c, hint, pr, vig, sr⟩ := e
  cases pr with
  | success r => simp at hp
  | failure err2 =>
    by_cases h1 : err2 = ERROR_NO_MORE_ITEMS
    · simp [cycleBody, submitPayloads, h1]
    · by_cases h2 : err2 = ERROR_DEV_NOT_EXIST <;>
        simp [cycleBody, submitPayloads, h1, h2, devNotExist_ne_noMoreItems]

/-! Loop-level structural lemmas. -/

theorem countKind_cons (k : EKind) (x : Event) (l : List Event) :
    countKind k (x :: l)
      = (if Event.kind x == k then 1 else 0) + countKind k l := by
  simp only [countKind, List.filter_cons]
  split <;> simp [Nat.add_comm]

theorem loopAux_nil (total : Nat) (g : GetBuffer) (s : SetRequest) :
    loopAux total g s [] = ([], false) := rfl

theorem loopAux_cons_cancelled (total : Nat) (g : GetBuffer) (s : SetRequest)
    (e : CycleEnv) (rest : List CycleEnv) (hc : e.cancelled = true) :
    loopAux total g s (e :: rest) = ([Event.checkCancel true], true) := by
  simp [loopAux, hc]

theorem loopAux_cons_go (total : Nat) (g : GetBuffer) (s : SetRequest)
    (e : CycleEnv) (rest : List CycleEnv) (hc : e.cancelled = false)
    (hgo : (cycleBody total g s e).continues = true) :
    loopAux total g s (e :: rest)
      = (Event.checkCancel false :: (cycleBody total g s e).events
           ++ (loopAux total (cycleBody total g s e).getBuf
                 (cycleBody total g s e).setBuf rest).1,
         (loopAux total (cycleBody total g s e).getBuf
            (cycleBody total g s e).setBuf rest).2) := by
  simp [loopAux, hc, hgo]

theorem loopAux_cons_stop (total : Nat) (g : GetBuffer) (s : SetRequest)
    (e : CycleEnv) (rest : List CycleEnv) (hc : e.cancelled = false)
    (hst : (cycleBody total g s e).continues = false) :
    loopAux total g s (e :: rest)
      = (Event.checkCancel false :: (cycleBody total g s e).events, true) := by
  simp [loopAux, hc, hst]

/-- The whole loop is insensitive to the initial contents of the exchange
structures: every iteration zeroes them before use. -/
theorem loopAux_state_irrel (total : Nat) (envs : List CycleEnv)
    (g g' : GetBuffer) (s s' : SetRequest) :
    loopAux total g s envs = loopAux total g' s' envs := by
  cases envs with
  | nil => rfl
  | cons e rest =>
    have hcb : cycleBody total g' s' e = cycleBody total g s e := rfl
    by_cases hc : e.cancelled = true
    · rw [loopAux_cons_cancelled _ _ _ _ _ hc, loopAux_cons_cancelled _ _ _ _ _ hc]
    · have hc' : e.cancelled = false := by simpa using hc
      cases hgo : (cycleBody total g s e).continues
      · rw [loopAux_cons_stop _ _ _ _ _ hc' hgo,
            loopAux_cons_stop _ _ _ _ _ hc' (by rw [hcb]; exact hgo), hcb]
      · rw [loopAux_cons_go _ _ _ _ _ hc' hgo,
            loopAux_cons_go _ _ _ _ _ hc' (by rw [hcb]; exact hgo), hcb]

/-- Unfolding of a run over a prefix of cycles that all go around: the trace
is the concatenation of the per-cycle traces followed by the trace of the
remaining cycles, and the exit status is that of the remaining cycles. -/
theorem loopAux_append_go (total : Nat) :
    ∀ (p q : List CycleEnv) (g : GetBuffer) (s : SetRequest),
      (∀ e ∈ p, cycleGoesOn total e = true) →
      loopAux total g s (p ++ q)
        = (cyclesEvents total p ++ (loopAux total zeroGetBuffer zeroSetRequest q).1,
           (loopAux total zeroGetBuffer zeroSetRequest q).2) := by
  intro p
  induction p with
  | nil =>
    intro q g s _
    rw [List.nil_append, loopAux_state_irrel total q g zeroGetBuffer s zeroSetRequest]
    simp [cyclesEvents]
  | cons e rest ih =>
    intro q g s hp
    have he := hp e (by simp)
    have hrest : ∀ x ∈ rest, cycleGoesOn total x = true := by
      intro x hx
      exact hp x (by simp [hx])
    simp only [cycleGoesOn, Bool.and_eq_true, Bool.not_eq_true'] at he
    have hcb : cycleBody total g s e = cycleBody total zeroGetBuffer zeroSetRequest e := rfl
    have hgo : (cycleBody total g s e).continues = true := by rw [hcb]; exact he.2
    rw [List.cons_append, loopAux_cons_go _ _ _ _ _ he.1 hgo, ih q _ _ hrest]
    simp [cyclesEvents, hcb]

/-- The epilogue contains no poll ioctl. -/
theorem pollCalls_epilogue : pollCalls epilogue = [] := rfl

/-- The epilogue contains no submit ioctl. -/
theorem submitPayloads_epilogue : submitPayloads epilogue = [] := rfl

/-- The epilogue checks the cancellation flag no further. -/
theorem cancelChecks_epilogue : cancelChecks epilogue = [] := rfl

/-- The epilogue does not sleep. -/
theorem sleepCalls_epilogue : sleepCalls epilogue = [] := rfl

/-- The epilogue logs nothing at error severity. -/
theorem errorLogs_epilogue : errorLogs epilogue = [] := rfl

/-- A cancellation check contributes nothing to the list of poll calls. -/
theorem pollCalls_cons_check (r : Bool) (l : List Event) :
    pollCalls (Event.checkCancel r :: l) = pollCalls l := rfl

/-- A cancellation check contributes nothing to the list of submit payloads. -/
theorem submitPayloads_cons_check (r : Bool) (l : List Event) :
    submitPayloads (Event.checkCancel r :: l) = submitPayloads l := rfl

theorem pollCalls_nil : pollCalls [] = [] := rfl

theorem submitPayloads_nil : submitPayloads [] = [] := rfl

theorem errorLogs_nil : errorLogs [] = [] := rfl

/-- `runTask` unfolded: the loop trace followed by the epilogue when the
loop exited. -/
theorem runTask_eq (hdrSize cap : Nat) (g0 : GetBuffer) (s0 : SetRequest)
    (envs : List CycleEnv) :
    runTask hdrSize cap g0 s0 envs
      = (loopAux (hdrSize + cap) g0 s0 envs).1
          ++ (if (loopAux (hdrSize + cap) g0 s0 envs).2 then epilogue else []) := rfl

theorem pollCalls_runTask (hdrSize cap : Nat) (g0 : GetBuffer)
    (s0 : SetRequest) (envs : List CycleEnv) :
    pollCalls (runTask hdrSize cap g0 s0 envs)
      = pollCalls (loopAux (hdrSize + cap) g0 s0 envs).1 := by
  rw [runTask_eq, pollCalls_append]
  cases (loopAux (hdrSize + cap) g0 s0 envs).2 <;>
    simp [pollCalls_epilogue, pollCalls_nil]

theorem submitPayloads_runTask (hdrSize cap : Nat) (g0 : GetBuffer)
    (s0 : SetRequest) (envs : List CycleEnv) :
    submitPayloads (runTask hdrSize cap g0 s0 envs)
      = submitPayloads (loopAux (hdrSize + cap) g0 s0 envs).1 := by
  rw [runTask_eq, submitPayloads_append]
  cases (loopAux (hdrSize + cap) g0 s0 envs).2 <;>
    simp [submitPayloads_epilogue, submitPayloads_nil]

theorem errorLogs_runTask (hdrSize cap : Nat) (g0 : GetBuffer)
    (s0 : SetRequest) (envs : List CycleEnv) :
    errorLogs (runTask hdrSize cap g0 s0 envs)
      = errorLogs (loopAux (hdrSize + cap) g0 s0 envs).1 := by
  rw [runTask_eq, errorLogs_append]
  cases (loopAux (hdrSize + cap) g0 s0 envs).2 <;>
    simp [errorLogs_epilogue, errorLogs_nil]

/-- Every poll call the loop makes passes the total size and a freshly
zeroed, freshly stamped buffer. -/
theorem loopAux_pollCalls_shape (total : Nat) :
    ∀ (envs : List CycleEnv) (g : GetBuffer) (s : SetRequest)
      (pr : Nat × GetBuffer),
      pr ∈ pollCalls (loopAux total g s envs).1 →
      ∃ hint, pr = (total, freshGetBuffer total hint) := by
  intro envs
  induction envs with
  | nil =>
    intro g s pr h
    simp [loopAux_nil, pollCalls] at h
  | cons e rest ih =>
    intro g s pr h
    by_cases hc : e.cancelled = true
    · rw [loopAux_cons_cancelled _ _ _ _ _ hc] at h
      simp [pollCalls] at h
    · have hc' : e.cancelled = false := by simpa using hc
      cases hgo : (cycleBody total g s e).continues
      · rw [loopAux_cons_stop _ _ _ _ _ hc' hgo] at h
        dsimp only at h
        rw [pollCalls_cons_check, cycle_pollCalls] at h
        exact ⟨e.reqIdHint, by simpa using h⟩
      · rw [loopAux_cons_go _ _ _ _ _ hc' hgo] at h
        dsimp only at h
        rw [pollCalls_append, pollCalls_cons_check, cycle_pollCalls] at h
        rcases List.mem_append.mp h with h1 | h2
        · exact ⟨e.reqIdHint, by simpa using h1⟩
        · exact ih _ _ pr h2

/-- The loop itself releases nothing: no free and no handle close happens
while the loop is going. -/
theorem loopAux_countKind_release (total : Nat) :
    ∀ (envs : List CycleEnv) (g : GetBuffer) (s : SetRequest) (k : EKind),
      (k = EKind.freed ∨ k = EKind.closedEvt ∨ k = EKind.closedDev) →
      countKind k (loopAux total g s envs).1 = 0 := by
  intro envs
  induction envs with
  | nil =>
    intro g s k hk
    rcases hk with rfl | rfl | rfl <;> rfl
  | cons e rest ih =>
    intro g s k hk
    by_cases hc : e.cancelled = true
    · rw [loopAux_cons_cancelled _ _ _ _ _ hc]
      rcases hk with rfl | rfl | rfl <;> rfl
    · have hc' : e.cancelled = false := by simpa using hc
      have hcheck : countKind k [Event.checkCancel false] = 0 := by
        rcases hk with rfl | rfl | rfl <;> rfl
      cases hgo : (cycleBody total g s e).continues
      · rw [loopAux_cons_stop _ _ _ _ _ hc' hgo]
        rw [show (Event.checkCancel false :: (cycleBody total g s e).events)
              = [Event.checkCancel false] ++ (cycleBody total g s e).events from rfl,
            countKind_append, hcheck, cycle_countKind_release _ _ _ _ _ hk]
      · rw [loopAux_cons_go _ _ _ _ _ hc' hgo]
        rw [show (Event.checkCancel false :: (cycleBody total g s e).events
                    ++ (loopAux total (cycleBody total g s e).getBuf
                          (cycleBody total g s e).setBuf rest).1)
              = [Event.checkCancel false] ++ ((cycleBody total g s e).events
                    ++ (loopAux total (cycleBody total g s e).getBuf
                          (cycleBody total g s e).setBuf rest).1) from rfl,
            countKind_append, countKind_append, hcheck,
            cycle_countKind_release _ _ _ _ _ hk, ih _ _ _ hk]

/-- The epilogue frees the exchange buffer exactly once. -/
theorem countKind_freed_epilogue : countKind EKind.freed epilogue = 1 := rfl

/-- The epilogue closes the overlapped event handle exactly once. -/
theorem countKind_closedEvt_epilogue : countKind EKind.closedEvt epilogue = 1 := rfl

/-- The epilogue does not close the device handle (the destructor does). -/
theorem countKind_closedDev_epilogue : countKind EKind.closedDev epilogue = 0 := rfl

/-- The destructor logs nothing at error severity. -/
theorem errorLogs_destructorRun (d : GuardedDeviceState) :
    errorLogs (destructorRun d) = [] := by
  unfold destructorRun
  cases d.handleValid <;> rfl

/-- A successfully constructed `GuardedDevice` holds a valid handle. -/
theorem open_ok_handleValid (path : String) (os : OpenOutcome)
    (d : GuardedDeviceState) (h : openGuardedDevice path os = Except.ok d) :
    d.handleValid = true := by
  cases os with
  | opened =>
    simp [openGuardedDevice] at h
    rw [← h]
  | failed err =>
    simp only [openGuardedDevice] at h
    split at h
    · simp at h
    · split at h <;> simp at h

/-- A `break` out of the loop makes the whole of `runTask` independent of
any further modelled cycles: the loop never reaches them. -/
theorem runTask_stop_cons (hdrSize cap : Nat) (g0 : GetBuffer)
    (s0 : SetRequest) (e : CycleEnv) (rest : List CycleEnv)
    (hc : e.cancelled = false)
    (hst : (cycleBody (hdrSize + cap) g0 s0 e).continues = false) :
    runTask hdrSize cap g0 s0 (e :: rest) = runTask hdrSize cap g0 s0 [e] := by
  rw [runTask_eq, runTask_eq, loopAux_cons_stop _ _ _ _ _ hc hst,
      loopAux_cons_stop _ _ _ _ _ hc hst]

/-- A `break` out of the loop counts as an exit. -/
theorem loopExits_stop (hdrSize cap : Nat) (g0 : GetBuffer) (s0 : SetRequest)
    (e : CycleEnv)
    (hc : e.cancelled = false)
    (hst : (cycleBody (hdrSize + cap) g0 s0 e).continues = false) :
    loopExits hdrSize cap g0 s0 [e] = true := by
  unfold loopExits
  rw [loopAux_cons_stop _ _ _ _ _ hc hst]

/-- The whole outcome of an idle iteration: the driver answered
`ERROR_NO_MORE_ITEMS`, so the body logs, polls, sleeps 200ms and goes
around, leaving the buffer freshly stamped and the SET structure zeroed. -/
theorem cycleBody_empty (total : Nat) (g : GetBuffer) (s : SetRequest)
    (e : CycleEnv)
    (hp : e.pollResult = PollResult.failure ERROR_NO_MORE_ITEMS) :
    cycleBody total g s e
      = { events := [Event.logDebug fmtLooking [LogArg.n e.reqIdHint],
                     Event.pollIoctl total (freshGetBuffer total e.reqIdHint),
                     Event.sleep 200],
          continues := true,
          getBuf := freshGetBuffer total e.reqIdHint,
          setBuf := zeroSetRequest } := by
  obtain ⟨c, hint, pr, vig, sr⟩ := e
  cases pr with
  | success r => simp at hp
  | failure err =>
    have he : err = ERROR_NO_MORE_ITEMS := by simpa using hp
    subst he
    simp [cycleBody, freshGetBuffer, zeroMemoryGet, zeroMemorySet, zeroGetBuffer]

/-- Over a block of idle cycles the loop emits exactly the idle pattern of
every cycle and keeps running. -/
theorem loopAux_empty (total : Nat) :
    ∀ (envs : List CycleEnv) (g : GetBuffer) (s : SetRequest),
      (∀ e ∈ envs, e.cancelled = false ∧
         e.pollResult = PollResult.failure ERROR_NO_MORE_ITEMS) →
      loopAux total g s envs
        = ((envs.map (emptyCycleEvents total)).flatten, false) := by
  intro envs
  induction envs with
  | nil => intro g s _; rfl
  | cons e rest ih =>
    intro g s h
    have he := h e (by simp)
    have hrest : ∀ x ∈ rest, x.cancelled = false ∧
        x.pollResult = PollResult.failure ERROR_NO_MORE_ITEMS := by
      intro x hx
      exact h x (by simp [hx])
    have hbody := cycleBody_empty total g s e he.2
    have hgo : (cycleBody total g s e).continues = true := by rw [hbody]
    rw [loopAux_cons_go _ _ _ _ _ he.1 hgo, ih _ _ hrest]
    simp [hbody, emptyCycleEvents]

/-- A device-gone answer — on the poll or on the submit — stops the loop in
that cycle, logs the removal at debug severity and logs nothing at error
severity. -/
theorem cycle_gone (total : Nat) (g : GetBuffer) (s : SetRequest)
    (e : CycleEnv)
    (h : e.pollResult = PollResult.failure ERROR_DEV_NOT_EXIST ∨
         (∃ resp, e.pollResult = PollResult.success resp ∧
            e.submitResult = SubmitResult.failure ERROR_DEV_NOT_EXIST)) :
    (cycleBody total g s e).continues = false
    ∧ errorLogs (cycleBody total g s e).events = []
    ∧ Event.logDebug fmtGone [] ∈ (cycleBody total g s e).events := by
  obtain ⟨c, hint, pr, vig, sr⟩ := e
  rcases h with hp | ⟨resp, hp, hs⟩
  · cases pr with
    | success r => simp at hp
    | failure err =>
      have he : err = ERROR_DEV_NOT_EXIST := by simpa using hp
      subst he
      refine ⟨rfl, rfl, ?_⟩
      simp [cycleBody, devNotExist_ne_noMoreItems]
  · cases pr with
    | failure err => simp at hp
    | success r =>
      have hr : r = resp := by simpa using hp
      subst hr
      cases sr with
      | success => simp at hs
      | failure err =>
        have he : err = ERROR_DEV_NOT_EXIST := by simpa using hs
        subst he
        refine ⟨rfl, rfl, ?_⟩
        simp [cycleBody]

/-- A poll failure that is neither empty-queue nor device-gone stops the
loop and is logged at error severity with the stamped request id and the OS
error code as arguments (line 136). -/
theorem cycle_fatal_poll (total : Nat) (g : GetBuffer) (s : SetRequest)
    (e : CycleEnv) (err : Nat)
    (hp : e.pollResult = PollResult.failure err)
    (h1 : err ≠ ERROR_NO_MORE_ITEMS) (h2 : err ≠ ERROR_DEV_NOT_EXIST) :
    (cycleBody total g s e).continues = false
    ∧ errorLogs (cycleBody total g s e).events
        = [Event.logError fmtPollFailed
            [LogArg.n e.reqIdHint, LogArg.n err]] := by
  obtain ⟨c, hint, pr, vig, sr⟩ := e
  cases pr with
  | success r => simp at hp
  | failure err2 =>
    have he : err2 = err := by simpa using hp
    subst he
    constructor
    · simp [cycleBody, h1, h2]
    · simp [cycleBody, h1, h2, errorLogs, Event.kind]

/-- A submit failure that is not device-gone stops the loop and is logged at
error severity with the request token as the only argument (line 202): the
OS error code is not part of the message. -/
theorem cycle_fatal_submit (total : Nat) (g : GetBuffer) (s : SetRequest)
    (e : CycleEnv) (resp : CreateResponse) (err : Nat)
    (hp : e.pollResult = PollResult.success resp)
    (hs : e.submitResult = SubmitResult.failure err)
    (h2 : err ≠ ERROR_DEV_NOT_EXIST) :
    (cycleBody total g s e).continues = false
    ∧ errorLogs (cycleBody total g s e).events
        = [Event.logError fmtSubmitFailed
            [LogArg.n (resp.requestId.getD e.reqIdHint)]] := by
  obtain ⟨c, hint, pr, vig, sr⟩ := e
  cases pr with
  | failure err2 => simp at hp
  | success r =>
    have hr : r = resp := by simpa using hp
    subst hr
    cases sr with
    | success => simp at hs
    | failure err2 =>
      have he : err2 = err := by simpa using hs
      subst he
      constructor
      · simp [cycleBody, h2]
      · simp [cycleBody, h2, errorLogs, Event.kind, applyResponse,
              freshGetBuffer, zeroGetBuffer, zeroMemoryGet]

/-- A cancellation check prepends its result to the observed checks. -/
theorem cancelChecks_cons_check (r : Bool) (l : List Event) :
    cancelChecks (Event.checkCancel r :: l) = r :: cancelChecks l := rfl

/-- Block of going-around cycles: each contributes exactly one (negative)
cancellation check. -/
theorem cancelChecks_cyclesEvents (total : Nat) :
    ∀ p : List CycleEnv,
      cancelChecks (cyclesEvents total p) = List.replicate p.length false := by
  intro p
  induction p with
  | nil => rfl
  | cons e rest ih =>
    simp only [cyclesEvents, List.map_cons, List.flatten_cons]
    rw [cancelChecks_append, cancelChecks_cons_check, cycle_cancelChecks]
    simp only [cyclesEvents] at ih
    rw [ih]
    rfl

/-- Sleep calls of a block of idle cycles: one 200ms sleep per cycle. -/
theorem sleepCalls_flatten_empty (total : Nat) :
    ∀ p : List CycleEnv,
      sleepCalls ((p.map (emptyCycleEvents total)).flatten)
        = List.replicate p.length 200 := by
  intro p
  induction p with
  | nil => rfl
  | cons e rest ih =>
    simp only [List.map_cons, List.flatten_cons]
    rw [sleepCalls_append, ih]
    rfl

/-- Idle cycles never invoke the vigil and never submit. -/
theorem countKind_flatten_empty (total : Nat) (k : EKind)
    (hk : k = EKind.vigil ∨ k = EKind.submitted) :
    ∀ p : List CycleEnv,
      countKind k ((p.map (emptyCycleEvents total)).flatten) = 0 := by
  intro p
  induction p with
  | nil => rcases hk with rfl | rfl <;> rfl
  | cons e rest ih =>
    simp only [List.map_cons, List.flatten_cons]
    rw [countKind_append, ih]
    rcases hk with rfl | rfl <;> rfl

/-- The event-kind pattern of a block of idle cycles: check, debug log,
poll, sleep, repeated once per cycle. -/
theorem kinds_flatten_empty (total : Nat) :
    ∀ p : List CycleEnv,
      ((p.map (emptyCycleEvents total)).flatten).map Event.kind
        = (List.replicate p.length
            [EKind.check, EKind.dbg, EKind.poll, EKind.sleepy]).flatten := by
  intro p
  induction p with
  | nil => rfl
  | cons e rest ih =>
    simp only [List.map_cons, List.flatten_cons, List.map_append,
               List.replicate_succ]
    rw [ih]
    rfl

/-- A cancellation check is not an error-severity log. -/
theorem errorLogs_cons_check (r : Bool) (l : List Event) :
    errorLogs (Event.checkCancel r :: l) = errorLogs l := rfl

/-- With a valid handle the destructor closes exactly the device handle. -/
theorem destructorRun_valid (d : GuardedDeviceState)
    (h : d.handleValid = true) :
    destructorRun d = [Event.closeDeviceHandle] := by
  simp [destructorRun, h]

/-- The two constructor error conditions are distinct codes. -/
theorem accessDenied_ne_fileNotFound :
    ERROR_ACCESS_DENIED ≠ ERROR_FILE_NOT_FOUND := by decide

/-! Claim theorems. -/

/-- C1: for every CreateRequest returned by a successful poll and every
decision written back by the authorization bridge (`processVigil` writing
`a` into `IsAllowed` and `b` into `IsSticky`), the submit of the same cycle
carries exactly the request's correlation token and exactly those two
flags, and it happens after the bridge call. -/
theorem decision_round_trip (total : Nat) (g : GetBuffer) (s : SetRequest)
    (e : CycleEnv) (resp : CreateResponse) (a b : Bool)
    (hp : e.pollResult = PollResult.success resp)
    (hv : e.vigil = { isAllowed := some a, isSticky := some b }) :
    submitPayloads (cycleBody total g s e).events
      = [{ RequestId := resp.requestId.getD e.reqIdHint,
           IsAllowed := a, IsSticky := b }]
    ∧ ∃ pre mid post,
        (cycleBody total g s e).events
          = pre ++ Event.decide resp.hardwareIds resp.deviceId
                     resp.instanceId resp.processId
              :: (mid ++ Event.submitIoctl
                    { RequestId := resp.requestId.getD e.reqIdHint,
                      IsAllowed := a, IsSticky := b } :: post) := by
  constructor
  · have h1 := cycle_submitPayloads_success total g s e resp hp
    rw [hv] at h1
    simpa using h1
  · cases hs : e.submitResult with
    | success =>
      refine ⟨[Event.logDebug fmtLooking [LogArg.n e.reqIdHint],
                 Event.pollIoctl total (freshGetBuffer total e.reqIdHint),
                 Event.logDebug fmtDeviceId [LogArg.s resp.deviceId],
                 Event.logDebug fmtInstanceId [LogArg.s resp.instanceId],
                 Event.logDebug fmtCompleted [LogArg.n (resp.requestId.getD e.reqIdHint)],
                 Event.logDebug fmtPid [LogArg.n resp.processId],
                 Event.logDebug fmtStartVigil [LogArg.n (resp.requestId.getD e.reqIdHint)]],
                [Event.logDebug fmtEndVigil [LogArg.n (resp.requestId.getD e.reqIdHint)],
                    Event.logDebug fmtIsAllowed [LogArg.b a],
                    Event.logDebug fmtIsSticky [LogArg.b b],
                    Event.logDebug fmtSending [LogArg.n (resp.requestId.getD e.reqIdHint)]],
                [Event.logDebug fmtFinished [LogArg.n (resp.requestId.getD e.reqIdHint)]], ?_⟩
      simp [cycleBody, hp, hv, hs, applyResponse, freshGetBuffer,
            zeroGetBuffer, zeroMemoryGet, zeroMemorySet, zeroSetRequest]
    | failure err =>
      by_cases h : err = ERROR_DEV_NOT_EXIST
      · refine ⟨[Event.logDebug fmtLooking [LogArg.n e.reqIdHint],
                 Event.pollIoctl total (freshGetBuffer total e.reqIdHint),
                 Event.logDebug fmtDeviceId [LogArg.s resp.deviceId],
                 Event.logDebug fmtInstanceId [LogArg.s resp.instanceId],
                 Event.logDebug fmtCompleted [LogArg.n (resp.requestId.getD e.reqIdHint)],
                 Event.logDebug fmtPid [LogArg.n resp.processId],
                 Event.logDebug fmtStartVigil [LogArg.n (resp.requestId.getD e.reqIdHint)]],
                [Event.logDebug fmtEndVigil [LogArg.n (resp.requestId.getD e.reqIdHint)],
                      Event.logDebug fmtIsAllowed [LogArg.b a],
                      Event.logDebug fmtIsSticky [LogArg.b b],
                      Event.logDebug fmtSending [LogArg.n (resp.requestId.getD e.reqIdHint)]],
                  [Event.logDebug fmtGone []], ?_⟩
        simp [cycleBody, hp, hv, hs, h, applyResponse, freshGetBuffer,
              zeroGetBuffer, zeroMemoryGet, zeroMemorySet, zeroSetRequest]
      · refine ⟨[Event.logDebug fmtLooking [LogArg.n e.reqIdHint],
                 Event.pollIoctl total (freshGetBuffer total e.reqIdHint),
                 Event.logDebug fmtDeviceId [LogArg.s resp.deviceId],
                 Event.logDebug fmtInstanceId [LogArg.s resp.instanceId],
                 Event.logDebug fmtCompleted [LogArg.n (resp.requestId.getD e.reqIdHint)],
                 Event.logDebug fmtPid [LogArg.n resp.processId],
                 Event.logDebug fmtStartVigil [LogArg.n (resp.requestId.getD e.reqIdHint)]],
                [Event.logDebug fmtEndVigil [LogArg.n (resp.requestId.getD e.reqIdHint)],
                      Event.logDebug fmtIsAllowed [LogArg.b a],
                      Event.logDebug fmtIsSticky [LogArg.b b],
                      Event.logDebug fmtSending [LogArg.n (resp.requestId.getD e.reqIdHint)]],
                  [Event.logError fmtSubmitFailed [LogArg.n (resp.requestId.getD e.reqIdHint)]], ?_⟩
        simp [cycleBody, hp, hv, hs, h, applyResponse, freshGetBuffer,
              zeroGetBuffer, zeroMemoryGet, zeroMemorySet, zeroSetRequest]

/-- C1 witness: on the sample cycle the submitted payload is token 7 with
the bridge's `allow, not sticky` decision, placed after the bridge call. -/
theorem decision_round_trip_witness :
    submitPayloads (cycleBody 12 zeroGetBuffer zeroSetRequest envSuccess).events
      = [{ RequestId := 7, IsAllowed := true, IsSticky := false }]
    ∧ ∃ pre mid post,
        (cycleBody 12 zeroGetBuffer zeroSetRequest envSuccess).events
          = pre ++ Event.decide "HID hardware ids" "HID device 0"
                     "HID instance 0" 4242
              :: (mid ++ Event.submitIoctl
                    { RequestId := 7, IsAllowed := true, IsSticky := false }
                    :: post) :=
  decision_round_trip 12 zeroGetBuffer zeroSetRequest envSuccess sampleResp
    true false rfl rfl

/-- C2: every poll of any run passes the driver a buffer bound of exactly
header size + capacity, writes that same total into the buffer's `Size`
field, and hands over a buffer that is freshly zeroed apart from the `Size`
field and the stamped token: no other field survives from any earlier
cycle. -/
theorem poll_buffer_sized_and_zeroed :
    (∀ (hdrSize cap : Nat) (g0 : GetBuffer) (s0 : SetRequest)
       (envs : List CycleEnv) (pr : Nat × GetBuffer),
       pr ∈ pollCalls (runTask hdrSize cap g0 s0 envs) →
       pr.1 = hdrSize + cap
       ∧ pr.2.Size = hdrSize + cap
       ∧ ∃ hint, pr.2 = freshGetBuffer (hdrSize + cap) hint)
    ∧ (∀ total hint,
        (freshGetBuffer total hint).ProcessId = 0
        ∧ (freshGetBuffer total hint).DeviceId = ""
        ∧ (freshGetBuffer total hint).InstanceId = ""
        ∧ (freshGetBuffer total hint).HardwareIds = "") := by
  constructor
  · intro hdrSize cap g0 s0 envs pr h
    rw [pollCalls_runTask] at h
    obtain ⟨hint, rfl⟩ := loopAux_pollCalls_shape (hdrSize + cap) envs g0 s0 pr h
    exact ⟨rfl, rfl, hint, rfl⟩
  · intro total hint
    exact ⟨rfl, rfl, rfl, rfl⟩

/-- C2 witness: the single poll of an idle cycle with header size 4 and
capacity 8 passes bound 12 and the fresh buffer stamped with token 5. -/
theorem poll_buffer_witness :
    ((12 : Nat), freshGetBuffer 12 5)
        ∈ pollCalls (runTask 4 8 zeroGetBuffer zeroSetRequest [envEmpty])
    ∧ ((12 : Nat), freshGetBuffer 12 5).1 = 4 + 8
    ∧ ((12 : Nat), freshGetBuffer 12 5).2.Size = 4 + 8
    ∧ ∃ hint, ((12 : Nat), freshGetBuffer 12 5).2 = freshGetBuffer (4 + 8) hint := by
  have hmem : ((12 : Nat), freshGetBuffer 12 5)
      ∈ pollCalls (runTask 4 8 zeroGetBuffer zeroSetRequest [envEmpty]) := by
    decide
  exact ⟨hmem, poll_buffer_sized_and_zeroed.1 4 8 zeroGetBuffer zeroSetRequest
    [envEmpty] _ hmem⟩

/-- C5: a failed `CreateFileA` never yields a constructed device; error 2
(file not found) raises the not-found message telling the caller to check
the path, error 5 (access denied) raises the already-guarded message, and
any other code raises the unknown-error message.  The model performs a
single open attempt: there is no retry. -/
theorem open_error_taxonomy (path : String) (err : Nat) :
    (∀ d, openGuardedDevice path (OpenOutcome.failed err) ≠ Except.ok d)
    ∧ (err = ERROR_FILE_NOT_FOUND →
        openGuardedDevice path (OpenOutcome.failed err)
          = Except.error (DeviceOpenError.NotFound msgNotFound))
    ∧ (err = ERROR_ACCESS_DENIED →
        openGuardedDevice path (OpenOutcome.failed err)
          = Except.error (DeviceOpenError.AccessDenied msgAccessDenied))
    ∧ (err ≠ ERROR_FILE_NOT_FOUND → err ≠ ERROR_ACCESS_DENIED →
        openGuardedDevice path (OpenOutcome.failed err)
          = Except.error (DeviceOpenError.Unknown msgUnknown)) := by
  refine ⟨?_, ?_, ?_, ?_⟩
  · intro d h
    simp only [openGuardedDevice] at h
    split at h
    · simp at h
    · split at h <;> simp at h
  · intro h2
    subst h2
    simp [openGuardedDevice]
  · intro h5
    subst h5
    simp [openGuardedDevice, accessDenied_ne_fileNotFound]
  · intro h2 h5
    simp [openGuardedDevice, h2, h5]

/-- C5 witness: error 2 maps to NotFound, error 5 to AccessDenied, error 31
to Unknown, and the failed open constructs no device. -/
theorem open_error_witness :
    openGuardedDevice "p" (OpenOutcome.failed 2)
      = Except.error (DeviceOpenError.NotFound msgNotFound)
    ∧ openGuardedDevice "p" (OpenOutcome.failed 5)
      = Except.error (DeviceOpenError.AccessDenied msgAccessDenied)
    ∧ openGuardedDevice "p" (OpenOutcome.failed 31)
      = Except.error (DeviceOpenError.Unknown msgUnknown)
    ∧ openGuardedDevice "p" (OpenOutcome.failed 2)
        ≠ Except.ok { devicePath := "p", handleValid := true } :=
  ⟨(open_error_taxonomy "p" 2).2.1 rfl,
   (open_error_taxonomy "p" 5).2.2.1 rfl,
   (open_error_taxonomy "p" 31).2.2.2 (by decide) (by decide),
   (open_error_taxonomy "p" 2).1 _⟩

/-- C10: the token submitted back to the driver is the `RequestId` field
read from the buffer after the poll completed: when the driver overwrote
the field, the driver's value is echoed; only when the driver left it
unchanged does the locally stamped hint reach the submit. -/
theorem submit_token_from_response (total : Nat) (g : GetBuffer)
    (s : SetRequest) (e : CycleEnv) (resp : CreateResponse)
    (hp : e.pollResult = PollResult.success resp) :
    submitPayloads (cycleBody total g s e).events
      = [{ RequestId := resp.requestId.getD e.reqIdHint,
           IsAllowed := e.vigil.isAllowed.getD false,
           IsSticky := e.vigil.isSticky.getD false }]
    ∧ (∀ v, resp.requestId = some v →
        (submitPayloads (cycleBody total g s e).events).map
            SetRequest.RequestId = [v])
    ∧ (resp.requestId = none →
        (submitPayloads (cycleBody total g s e).events).map
            SetRequest.RequestId = [e.reqIdHint]) := by
  have h := cycle_submitPayloads_success total g s e resp hp
  refine ⟨h, ?_, ?_⟩
  · intro v hv
    rw [h]
    simp [hv]
  · intro hn
    rw [h]
    simp [hn]

/-- C10 witness: with the driver overwriting the token to 1234 the submit
carries 1234 (not the stamped hint 11); with the driver leaving the field,
the submit carries the stamped hint 7. -/
theorem submit_token_witness :
    submitPayloads (cycleBody 12 zeroGetBuffer zeroSetRequest envOverwrite).events
      = [{ RequestId := 1234, IsAllowed := false, IsSticky := true }]
    ∧ (submitPayloads (cycleBody 12 zeroGetBuffer zeroSetRequest envOverwrite).events).map
          SetRequest.RequestId = [1234]
    ∧ (submitPayloads (cycleBody 12 zeroGetBuffer zeroSetRequest envSuccess).events).map
          SetRequest.RequestId = [7] :=
  ⟨(submit_token_from_response 12 zeroGetBuffer zeroSetRequest envOverwrite
      sampleRespOver rfl).1,
   (submit_token_from_response 12 zeroGetBuffer zeroSetRequest envOverwrite
      sampleRespOver rfl).2.1 1234 rfl,
   (submit_token_from_response 12 zeroGetBuffer zeroSetRequest envSuccess
      sampleResp rfl).2.2 rfl⟩

theorem countKind_freed_destructor :
    countKind EKind.freed [Event.closeDeviceHandle] = 0 := rfl

theorem countKind_closedEvt_destructor :
    countKind EKind.closedEvt [Event.closeDeviceHandle] = 0 := rfl

theorem countKind_closedDev_destructor :
    countKind EKind.closedDev [Event.closeDeviceHandle] = 1 := rfl

/-- For a single non-continuing cycle followed by destruction, the release
events of the lifetime are exactly those of the epilogue and the
destructor. -/
theorem lifecycle_release_counts (hdrSize cap : Nat) (g0 : GetBuffer)
    (s0 : SetRequest) (envs : List CycleEnv) (d : GuardedDeviceState)
    (hd : d.handleValid = true)
    (hexit : (loopAux (hdrSize + cap) g0 s0 envs).2 = true)
    (k : EKind)
    (hk : k = EKind.freed ∨ k = EKind.closedEvt ∨ k = EKind.closedDev) :
    countKind k (lifecycle hdrSize cap g0 s0 envs d)
      = countKind k epilogue + countKind k [Event.closeDeviceHandle] := by
  unfold lifecycle
  rw [runTask_eq, hexit, destructorRun_valid d hd]
  simp only [if_true, countKind_append,
             loopAux_countKind_release (hdrSize + cap) envs g0 s0 k hk,
             Nat.zero_add]

/-- C3: when the driver reports the device gone — whether on the poll or on
the submit — the loop ends in that very cycle (the remaining modelled
cycles are unreachable), the exit is an ordinary return (no error-severity
log; the removal is observable only as a debug log), and the buffer, the
event handle and the device handle are each released exactly once. -/
theorem device_gone_terminates_silently (hdrSize cap : Nat) (g0 : GetBuffer)
    (s0 : SetRequest) (e : CycleEnv) (rest : List CycleEnv) (path : String)
    (os : OpenOutcome) (d : GuardedDeviceState)
    (hopen : openGuardedDevice path os = Except.ok d)
    (hc : e.cancelled = false)
    (hgone : e.pollResult = PollResult.failure ERROR_DEV_NOT_EXIST ∨
      (∃ resp, e.pollResult = PollResult.success resp ∧
         e.submitResult = SubmitResult.failure ERROR_DEV_NOT_EXIST)) :
    lifecycle hdrSize cap g0 s0 (e :: rest) d = lifecycle hdrSize cap g0 s0 [e] d
    ∧ loopExits hdrSize cap g0 s0 [e] = true
    ∧ errorLogs (lifecycle hdrSize cap g0 s0 [e] d) = []
    ∧ Event.logDebug fmtGone [] ∈ lifecycle hdrSize cap g0 s0 [e] d
    ∧ countKind EKind.freed (lifecycle hdrSize cap g0 s0 [e] d) = 1
    ∧ countKind EKind.closedEvt (lifecycle hdrSize cap g0 s0 [e] d) = 1
    ∧ countKind EKind.closedDev (lifecycle hdrSize cap g0 s0 [e] d) = 1 := by
  obtain ⟨hst, herr, hmem⟩ := cycle_gone (hdrSize + cap) g0 s0 e hgone
  have hd := open_ok_handleValid path os d hopen
  have h2 : (loopAux (hdrSize + cap) g0 s0 [e]).2 = true :=
    loopExits_stop hdrSize cap g0 s0 e hc hst
  have hrun : runTask hdrSize cap g0 s0 [e]
      = (Event.checkCancel false :: (cycleBody (hdrSize + cap) g0 s0 e).events)
          ++ epilogue := by
    rw [runTask_eq, loopAux_cons_stop _ _ _ _ _ hc hst]
    rfl
  refine ⟨?_, h2, ?_, ?_, ?_, ?_, ?_⟩
  · unfold lifecycle
    rw [runTask_stop_cons hdrSize cap g0 s0 e rest hc hst]
  · unfold lifecycle
    rw [errorLogs_append, errorLogs_destructorRun, hrun, errorLogs_append,
        errorLogs_cons_check, herr, errorLogs_epilogue]
    rfl
  · unfold lifecycle
    rw [hrun]
    exact List.mem_append_left _
      (List.mem_append_left _ (List.mem_cons_of_mem _ hmem))
  · rw [lifecycle_release_counts hdrSize cap g0 s0 [e] d hd h2 _ (Or.inl rfl)]
    rfl
  · rw [lifecycle_release_counts hdrSize cap g0 s0 [e] d hd h2 _
          (Or.inr (Or.inl rfl))]
    rfl
  · rw [lifecycle_release_counts hdrSize cap g0 s0 [e] d hd h2 _
          (Or.inr (Or.inr rfl))]
    rfl

/-- C3 witness: a device-gone poll in the first of two modelled cycles
terminates the lifetime there, silently, releasing everything once. -/
theorem device_gone_witness :
    lifecycle 4 8 zeroGetBuffer zeroSetRequest [envGonePoll, envEmpty]
        { devicePath := "p", handleValid := true }
      = lifecycle 4 8 zeroGetBuffer zeroSetRequest [envGonePoll]
          { devicePath := "p", handleValid := true }
    ∧ loopExits 4 8 zeroGetBuffer zeroSetRequest [envGonePoll] = true
    ∧ errorLogs (lifecycle 4 8 zeroGetBuffer zeroSetRequest [envGonePoll]
        { devicePath := "p", handleValid := true }) = []
    ∧ Event.logDebug fmtGone [] ∈ lifecycle 4 8 zeroGetBuffer zeroSetRequest
        [envGonePoll] { devicePath := "p", handleValid := true }
    ∧ countKind EKind.freed (lifecycle 4 8 zeroGetBuffer zeroSetRequest
        [envGonePoll] { devicePath := "p", handleValid := true }) = 1
    ∧ countKind EKind.closedEvt (lifecycle 4 8 zeroGetBuffer zeroSetRequest
        [envGonePoll] { devicePath := "p", handleValid := true }) = 1
    ∧ countKind EKind.closedDev (lifecycle 4 8 zeroGetBuffer zeroSetRequest
        [envGonePoll] { devicePath := "p", handleValid := true }) = 1 :=
  device_gone_terminates_silently 4 8 zeroGetBuffer zeroSetRequest envGonePoll
    [envEmpty] "p" OpenOutcome.opened { devicePath := "p", handleValid := true }
    rfl rfl (Or.inl rfl)

/-- C4: during a run of consecutive empty-queue cycles the authorization
bridge is never invoked, nothing is submitted, each poll is followed by a
200ms sleep before the next poll, and the trace is exactly the idle pattern
repeated once per cycle. -/
theorem empty_queue_backoff (hdrSize cap : Nat) (g0 : GetBuffer)
    (s0 : SetRequest) (envs : List CycleEnv)
    (h : ∀ e ∈ envs, e.cancelled = false ∧
       e.pollResult = PollResult.failure ERROR_NO_MORE_ITEMS) :
    runTask hdrSize cap g0 s0 envs
      = (envs.map (emptyCycleEvents (hdrSize + cap))).flatten
    ∧ countKind EKind.vigil (runTask hdrSize cap g0 s0 envs) = 0
    ∧ countKind EKind.submitted (runTask hdrSize cap g0 s0 envs) = 0
    ∧ sleepCalls (runTask hdrSize cap g0 s0 envs)
        = List.replicate envs.length 200
    ∧ (runTask hdrSize cap g0 s0 envs).map Event.kind
        = (List.replicate envs.length
            [EKind.check, EKind.dbg, EKind.poll, EKind.sleepy]).flatten := by
  have hl := loopAux_empty (hdrSize + cap) envs g0 s0 h
  have hrt : runTask hdrSize cap g0 s0 envs
      = (envs.map (emptyCycleEvents (hdrSize + cap))).flatten := by
    rw [runTask_eq, hl]
    simp
  rw [hrt]
  exact ⟨rfl,
    countKind_flatten_empty (hdrSize + cap) EKind.vigil (Or.inl rfl) envs,
    countKind_flatten_empty (hdrSize + cap) EKind.submitted (Or.inr rfl) envs,
    sleepCalls_flatten_empty (hdrSize + cap) envs,
    kinds_flatten_empty (hdrSize + cap) envs⟩

/-- C4 witness: two empty cycles produce the idle pattern twice, zero
bridge calls, zero submits, and two 200ms sleeps. -/
theorem empty_queue_witness :
    runTask 4 8 zeroGetBuffer zeroSetRequest [envEmpty, envEmpty]
      = ([envEmpty, envEmpty].map (emptyCycleEvents (4 + 8))).flatten
    ∧ countKind EKind.vigil
        (runTask 4 8 zeroGetBuffer zeroSetRequest [envEmpty, envEmpty]) = 0
    ∧ countKind EKind.submitted
        (runTask 4 8 zeroGetBuffer zeroSetRequest [envEmpty, envEmpty]) = 0
    ∧ sleepCalls (runTask 4 8 zeroGetBuffer zeroSetRequest [envEmpty, envEmpty])
        = List.replicate 2 200
    ∧ (runTask 4 8 zeroGetBuffer zeroSetRequest [envEmpty, envEmpty]).map
          Event.kind
        = (List.replicate 2
            [EKind.check, EKind.dbg, EKind.poll, EKind.sleepy]).flatten :=
  empty_queue_backoff 4 8 zeroGetBuffer zeroSetRequest [envEmpty, envEmpty]
    (by decide)

/-- C6: once the loop has exited — through cancellation or any break — the
lifetime of a successfully constructed device frees the exchange buffer
exactly once, closes the overlapped event handle exactly once, and closes
the device handle exactly once. -/
theorem resources_released_once (hdrSize cap : Nat) (g0 : GetBuffer)
    (s0 : SetRequest) (envs : List CycleEnv) (path : String)
    (os : OpenOutcome) (d : GuardedDeviceState)
    (hopen : openGuardedDevice path os = Except.ok d)
    (hexit : loopExits hdrSize cap g0 s0 envs = true) :
    countKind EKind.freed (lifecycle hdrSize cap g0 s0 envs d) = 1
    ∧ countKind EKind.closedEvt (lifecycle hdrSize cap g0 s0 envs d) = 1
    ∧ countKind EKind.closedDev (lifecycle hdrSize cap g0 s0 envs d) = 1 := by
  have hd := open_ok_handleValid path os d hopen
  have h2 : (loopAux (hdrSize + cap) g0 s0 envs).2 = true := hexit
  refine ⟨?_, ?_, ?_⟩
  · rw [lifecycle_release_counts hdrSize cap g0 s0 envs d hd h2 _ (Or.inl rfl)]
    rfl
  · rw [lifecycle_release_counts hdrSize cap g0 s0 envs d hd h2 _
          (Or.inr (Or.inl rfl))]
    rfl
  · rw [lifecycle_release_counts hdrSize cap g0 s0 envs d hd h2 _
          (Or.inr (Or.inr rfl))]
    rfl

/-- C6 witness: a lifetime that exits through cancellation releases the
three resources once each. -/
theorem resources_released_witness :
    countKind EKind.freed (lifecycle 4 8 zeroGetBuffer zeroSetRequest
        [envCancelled] { devicePath := "p", handleValid := true }) = 1
    ∧ countKind EKind.closedEvt (lifecycle 4 8 zeroGetBuffer zeroSetRequest
        [envCancelled] { devicePath := "p", handleValid := true }) = 1
    ∧ countKind EKind.closedDev (lifecycle 4 8 zeroGetBuffer zeroSetRequest
        [envCancelled] { devicePath := "p", handleValid := true }) = 1 :=
  resources_released_once 4 8 zeroGetBuffer zeroSetRequest [envCancelled]
    "p" OpenOutcome.opened { devicePath := "p", handleValid := true } rfl rfl

/-- C7: no partial or stale decision is ever submitted.  First conjunct: if
the vigil writes neither flag, the per-cycle zero-initialization makes the
submitted decision the deny-shaped default (both flags false).  Second
conjunct: the submit payloads from the current cycle onward are identical
across any two runs that agree from the current cycle on — whatever the
earlier cycles carried and whatever garbage the exchange structures started
with. -/
theorem zero_init_no_leak :
    (∀ (total : Nat) (g : GetBuffer) (s : SetRequest) (e : CycleEnv)
       (resp : CreateResponse),
       e.pollResult = PollResult.success resp →
       e.vigil = { isAllowed := none, isSticky := none } →
       submitPayloads (cycleBody total g s e).events
         = [{ RequestId := resp.requestId.getD e.reqIdHint,
              IsAllowed := false, IsSticky := false }])
    ∧ (∀ (hdrSize cap : Nat) (g0 g1 : GetBuffer) (s0 s1 : SetRequest)
         (p1 p2 q : List CycleEnv),
         (∀ e ∈ p1, cycleGoesOn (hdrSize + cap) e = true) →
         (∀ e ∈ p2, cycleGoesOn (hdrSize + cap) e = true) →
         (submitPayloads (runTask hdrSize cap g0 s0 (p1 ++ q))).drop
             (submitPayloads (cyclesEvents (hdrSize + cap) p1)).length
           = (submitPayloads (runTask hdrSize cap g1 s1 (p2 ++ q))).drop
             (submitPayloads (cyclesEvents (hdrSize + cap) p2)).length) := by
  constructor
  · intro total g s e resp hp hv
    have h := cycle_submitPayloads_success total g s e resp hp
    rw [hv] at h
    simpa using h
  · intro hdrSize cap g0 g1 s0 s1 p1 p2 q h1 h2
    rw [submitPayloads_runTask, submitPayloads_runTask,
        loopAux_append_go (hdrSize + cap) p1 q g0 s0 h1,
        loopAux_append_go (hdrSize + cap) p2 q g1 s1 h2]
    dsimp only
    rw [submitPayloads_append, submitPayloads_append,
        List.drop_left, List.drop_left]

/-- C7 witness: a silent vigil yields the deny default on token 10, and the
submit payloads after a one-idle-cycle prefix equal those after an empty
prefix. -/
theorem zero_init_witness :
    submitPayloads (cycleBody 12 zeroGetBuffer zeroSetRequest envVigilSilent).events
      = [{ RequestId := 10, IsAllowed := false, IsSticky := false }]
    ∧ (submitPayloads (runTask 4 8 zeroGetBuffer zeroSetRequest
          ([envEmpty] ++ [envSuccess]))).drop
          (submitPayloads (cyclesEvents (4 + 8) [envEmpty])).length
        = (submitPayloads (runTask 4 8 zeroGetBuffer zeroSetRequest
            ([] ++ [envSuccess]))).drop
          (submitPayloads (cyclesEvents (4 + 8) [])).length :=
  ⟨zero_init_no_leak.1 12 zeroGetBuffer zeroSetRequest envVigilSilent
      sampleResp rfl rfl,
   zero_init_no_leak.2 4 8 zeroGetBuffer zeroGetBuffer zeroSetRequest
      zeroSetRequest [envEmpty] [] [envSuccess] (by decide) (by decide)⟩

/-- C8: the cancellation flag is consulted exactly once per cycle, as the
very first action of the cycle.  If it is set, the loop goes straight to
the epilogue: no further poll is issued.  If it is clear, the whole cycle
body — poll, bridge call, submit — runs without ever consulting the flag
again. -/
theorem cancellation_checked_once (hdrSize cap : Nat) (g0 : GetBuffer)
    (s0 : SetRequest) (e : CycleEnv) (rest : List CycleEnv) :
    (e.cancelled = true →
      runTask hdrSize cap g0 s0 (e :: rest) = Event.checkCancel true :: epilogue
      ∧ countKind EKind.poll (runTask hdrSize cap g0 s0 (e :: rest)) = 0)
    ∧ (e.cancelled = false →
      (∃ tail, runTask hdrSize cap g0 s0 (e :: rest)
         = Event.checkCancel false
             :: ((cycleBody (hdrSize + cap) g0 s0 e).events ++ tail))
      ∧ cancelChecks (cycleBody (hdrSize + cap) g0 s0 e).events = []) := by
  constructor
  · intro hc
    have hrun : runTask hdrSize cap g0 s0 (e :: rest)
        = Event.checkCancel true :: epilogue := by
      rw [runTask_eq, loopAux_cons_cancelled _ _ _ _ _ hc]
      rfl
    refine ⟨hrun, ?_⟩
    rw [hrun]
    rfl
  · intro hc
    constructor
    · cases hgo : (cycleBody (hdrSize + cap) g0 s0 e).continues
      · refine ⟨epilogue, ?_⟩
        rw [runTask_eq, loopAux_cons_stop _ _ _ _ _ hc hgo]
        rfl
      · refine ⟨(loopAux (hdrSize + cap) (cycleBody (hdrSize + cap) g0 s0 e).getBuf
            (cycleBody (hdrSize + cap) g0 s0 e).setBuf rest).1
            ++ (if (loopAux (hdrSize + cap) (cycleBody (hdrSize + cap) g0 s0 e).getBuf
                  (cycleBody (hdrSize + cap) g0 s0 e).setBuf rest).2
                then epilogue else []), ?_⟩
        rw [runTask_eq, loopAux_cons_go _ _ _ _ _ hc hgo]
        simp
    · exact cycle_cancelChecks (hdrSize + cap) g0 s0 e

/-- C8 witness: a cancelled boundary goes straight to the epilogue with no
poll; a clear boundary runs the cycle body, which contains no further
check. -/
theorem cancellation_checked_witness :
    (runTask 4 8 zeroGetBuffer zeroSetRequest [envCancelled]
        = Event.checkCancel true :: epilogue
      ∧ countKind EKind.poll
          (runTask 4 8 zeroGetBuffer zeroSetRequest [envCancelled]) = 0)
    ∧ ((∃ tail, runTask 4 8 zeroGetBuffer zeroSetRequest [envEmpty]
          = Event.checkCancel false
              :: ((cycleBody (4 + 8) zeroGetBuffer zeroSetRequest envEmpty).events
                    ++ tail))
      ∧ cancelChecks
          (cycleBody (4 + 8) zeroGetBuffer zeroSetRequest envEmpty).events = []) :=
  ⟨(cancellation_checked_once 4 8 zeroGetBuffer zeroSetRequest
      envCancelled []).1 rfl,
   (cancellation_checked_once 4 8 zeroGetBuffer zeroSetRequest
      envEmpty []).2 rfl⟩

/-- C9 (amended): a poll failure that is neither empty-queue nor
device-gone terminates the loop with no retry and is logged at error
severity with the request id and the OS error code; a submit failure other
than device-gone terminates the loop with no retry and is logged at error
severity, but its message carries only the request token — the OS error
code is not part of the arguments; a device-gone outcome on either
operation produces no error-severity log, only the debug removal notice. -/
theorem fatal_logging_and_termination (hdrSize cap : Nat) (g0 : GetBuffer)
    (s0 : SetRequest) (e : CycleEnv) (rest : List CycleEnv)
    (resp : CreateResponse) (err : Nat) :
    (e.cancelled = false → e.pollResult = PollResult.failure err →
      err ≠ ERROR_NO_MORE_ITEMS → err ≠ ERROR_DEV_NOT_EXIST →
      runTask hdrSize cap g0 s0 (e :: rest) = runTask hdrSize cap g0 s0 [e]
      ∧ errorLogs (runTask hdrSize cap g0 s0 [e])
          = [Event.logError fmtPollFailed [LogArg.n e.reqIdHint, LogArg.n err]]
      ∧ loopExits hdrSize cap g0 s0 [e] = true)
    ∧ (e.cancelled = false → e.pollResult = PollResult.success resp →
      e.submitResult = SubmitResult.failure err → err ≠ ERROR_DEV_NOT_EXIST →
      runTask hdrSize cap g0 s0 (e :: rest) = runTask hdrSize cap g0 s0 [e]
      ∧ errorLogs (runTask hdrSize cap g0 s0 [e])
          = [Event.logError fmtSubmitFailed
              [LogArg.n (resp.requestId.getD e.reqIdHint)]]
      ∧ loopExits hdrSize cap g0 s0 [e] = true)
    ∧ (e.cancelled = false →
      (e.pollResult = PollResult.failure ERROR_DEV_NOT_EXIST ∨
        (e.pollResult = PollResult.success resp ∧
          e.submitResult = SubmitResult.failure ERROR_DEV_NOT_EXIST)) →
      errorLogs (runTask hdrSize cap g0 s0 (e :: rest)) = []
      ∧ Event.logDebug fmtGone [] ∈ runTask hdrSize cap g0 s0 (e :: rest)) := by
  refine ⟨?_, ?_, ?_⟩
  · intro hc hp h1 h2
    obtain ⟨hst, herr⟩ :=
      cycle_fatal_poll (hdrSize + cap) g0 s0 e err hp h1 h2
    refine ⟨runTask_stop_cons hdrSize cap g0 s0 e rest hc hst, ?_,
      loopExits_stop hdrSize cap g0 s0 e hc hst⟩
    rw [errorLogs_runTask, loopAux_cons_stop _ _ _ _ _ hc hst]
    dsimp only
    rw [errorLogs_cons_check, herr]
  · intro hc hp hs h2
    obtain ⟨hst, herr⟩ :=
      cycle_fatal_submit (hdrSize + cap) g0 s0 e resp err hp hs h2
    refine ⟨runTask_stop_cons hdrSize cap g0 s0 e rest hc hst, ?_,
      loopExits_stop hdrSize cap g0 s0 e hc hst⟩
    rw [errorLogs_runTask, loopAux_cons_stop _ _ _ _ _ hc hst]
    dsimp only
    rw [errorLogs_cons_check, herr]
  · intro hc hg
    have hg' : e.pollResult = PollResult.failure ERROR_DEV_NOT_EXIST ∨
        (∃ r, e.pollResult = PollResult.success r ∧
           e.submitResult = SubmitResult.failure ERROR_DEV_NOT_EXIST) := by
      rcases hg with h | ⟨h1, h2⟩
      · exact Or.inl h
      · exact Or.inr ⟨resp, h1, h2⟩
    obtain ⟨hst, herr, hmem⟩ := cycle_gone (hdrSize + cap) g0 s0 e hg'
    have hrun : runTask hdrSize cap g0 s0 (e :: rest)
        = (Event.checkCancel false :: (cycleBody (hdrSize + cap) g0 s0 e).events)
            ++ epilogue := by
      rw [runTask_eq, loopAux_cons_stop _ _ _ _ _ hc hst]
      rfl
    constructor
    · rw [hrun, errorLogs_append, errorLogs_cons_check, herr, errorLogs_epilogue]
      rfl
    · rw [hrun]
      exact List.mem_append_left _ (List.mem_cons_of_mem _ hmem)

/-- C9 witness: the fatal poll error 31 is error-logged with the code and
the stamped id 8; the fatal submit error 99 is error-logged with only the
token 9; a device-gone poll leaves no error log, only the debug notice. -/
theorem fatal_logging_witness :
    (runTask 4 8 zeroGetBuffer zeroSetRequest [envFatalPoll, envEmpty]
        = runTask 4 8 zeroGetBuffer zeroSetRequest [envFatalPoll]
      ∧ errorLogs (runTask 4 8 zeroGetBuffer zeroSetRequest [envFatalPoll])
          = [Event.logError fmtPollFailed [LogArg.n 8, LogArg.n 31]]
      ∧ loopExits 4 8 zeroGetBuffer zeroSetRequest [envFatalPoll] = true)
    ∧ (runTask 4 8 zeroGetBuffer zeroSetRequest [envSubmitFatal]
        = runTask 4 8 zeroGetBuffer zeroSetRequest [envSubmitFatal]
      ∧ errorLogs (runTask 4 8 zeroGetBuffer zeroSetRequest [envSubmitFatal])
          = [Event.logError fmtSubmitFailed [LogArg.n 9]]
      ∧ loopExits 4 8 zeroGetBuffer zeroSetRequest [envSubmitFatal] = true)
    ∧ (errorLogs (runTask 4 8 zeroGetBuffer zeroSetRequest [envGonePoll]) = []
      ∧ Event.logDebug fmtGone []
          ∈ runTask 4 8 zeroGetBuffer zeroSetRequest [envGonePoll]) :=
  ⟨(fatal_logging_and_termination 4 8 zeroGetBuffer zeroSetRequest envFatalPoll
      [envEmpty] sampleResp 31).1 rfl rfl (by decide) (by decide),
   (fatal_logging_and_termination 4 8 zeroGetBuffer zeroSetRequest envSubmitFatal
      [] sampleResp 99).2.1 rfl rfl rfl (by decide),
   (fatal_logging_and_termination 4 8 zeroGetBuffer zeroSetRequest envGonePoll
      [] sampleResp 0).2.2 rfl (Or.inl rfl)⟩

/-- C9 counterexample to the claim as stated: a submit failing with OS
error 99 is logged at error severity, but the code 99 appears in no
argument of any error-severity log of the run — the only argument is the
request token 9.  The OS error code of a fatal submit is not surfaced. -/
theorem fatal_submit_code_not_surfaced :
    (errorLogs (runTask 4 8 zeroGetBuffer zeroSetRequest [envSubmitFatal])).length = 1
    ∧ errorLogNatArgs (runTask 4 8 zeroGetBuffer zeroSetRequest [envSubmitFatal])
        = [9]
    ∧ (errorLogNatArgs (runTask 4 8 zeroGetBuffer zeroSetRequest
        [envSubmitFatal])).contains 99 = false := by
  refine ⟨?_, ?_, ?_⟩ <;> rfl

end HidGuardian
